import Mathlib

/-!
Shallow embedding of `selfdrive/car/gm/carstate.py`: the GM vehicle-state
decoder `CarState.update` and the declarations it draws on.  Signal values
are rationals; the per-cycle signal tables are structures with one field per
signal the decoder reads.  Components of the base class and of the values
module that are not among the sources are modelled from the spec and marked
as such in their doc comments.
-/

/-- Network topology of the vehicle (`car.CarParams.NetworkLocation`). -/
inductive NetworkLocation
  | gateway
  | fwdCamera
  deriving DecidableEq

/-- Transmission type of the vehicle (`car.CarParams.TransmissionType`). -/
inductive TransmissionType
  | unknown
  | automatic
  | manual
  | direct
  | cvt
  deriving DecidableEq

/-- Decoded gear-selector labels (`car.CarState.GearShifter`): the enumerated
set includes the explicit manual-override label (`manumatic`) and `unknown`. -/
inductive GearShifter
  | unknown
  | park
  | drive
  | neutral
  | reverse
  | sport
  | low
  | brake
  | eco
  | manumatic
  deriving DecidableEq

/-- Modelled from the spec: `AccState` of `selfdrive.car.gm.values` is not
among the sources.  The spec names a shared 4-state cruise status code
{off, active, standstill, faulted} whose raw faulted value is 3. -/
def AccState.OFF : ℚ := 0

/-- Raw code for active cruise (see `AccState.OFF`). -/
def AccState.ACTIVE : ℚ := 1

/-- Raw code for a faulted cruise controller: the literal 3 of the spec. -/
def AccState.FAULTED : ℚ := 3

/-- Raw code for cruise standstill hold (see `AccState.OFF`). -/
def AccState.STANDSTILL : ℚ := 4

/-- Modelled from the spec: `STEER_THRESHOLD` of `selfdrive.car.gm.values` is
not among the sources; it is the configured driver-torque threshold for the
steering pressed boolean. -/
def STEER_THRESHOLD : ℚ := 1

/-- Modelled from the spec: `Conversions.KPH_TO_MS` of `common.conversions`
is not among the sources; the speed setpoint unit conversion from km/h to
m/s is the exact constant 1 / 3.6 = 5 / 18. -/
def KPH_TO_MS : ℚ := 5 / 18

/-- Modelled from the spec: `common.numpy_fast.mean` is not among the
sources; the raw velocity is the arithmetic mean of the four wheel-speed
signals (sum divided by count). -/
def mean (xs : List ℚ) : ℚ := xs.sum / (xs.length : ℚ)

/-- Wheel speeds of the snapshot (`car.CarState.WheelSpeeds`). -/
structure WheelSpeeds where
  fl : ℚ
  fr : ℚ
  rl : ℚ
  rr : ℚ

/-- Modelled from the spec: `get_wheel_speeds` of the base class
`CarStateBase` is not among the sources; per the spec the snapshot's wheel
speeds carry the four wheel-speed signals with the velocity unit matching
the wheel-speed signal unit, so it is a pass-through of the four signals. -/
def get_wheel_speeds (fl fr rl rr : ℚ) : WheelSpeeds := ⟨fl, fr, rl, rr⟩

/-- Persistent state of the Speed Estimator: velocity/acceleration estimate. -/
structure KFState where
  v : ℚ
  a : ℚ

/-- Modelled from the spec: `update_speed_kf` of the base class
`CarStateBase` is not among the sources.  Per the spec it is a linear
constant-acceleration state estimator with fixed gains whose state persists
across cycles; it runs exactly once per cycle and its updated state carries
the filtered velocity and filtered acceleration returned to the snapshot.
A fixed cycle period of 1/100 and fixed correction gains stand for the fixed
process/measurement noise tuning. -/
def update_speed_kf (kf : KFState) (v_ego_raw : ℚ) : KFState :=
  let predicted := kf.v + kf.a / 100
  let residual := v_ego_raw - predicted
  ⟨predicted + residual / 2, kf.a + 2 * residual⟩

/-- Modelled from the spec: `parse_gear_shifter` of the base class
`CarStateBase` is not among the sources.  Per the spec the literal manual
mode label maps to the manual-override gear and a selector label absent from
the dictionary (the `none` lookup result) decodes to `unknown`, never an
error. -/
def parse_gear_shifter : Option String → GearShifter
  | none => GearShifter.unknown
  | some s =>
    if s = "P" then GearShifter.park
    else if s = "D" then GearShifter.drive
    else if s = "N" then GearShifter.neutral
    else if s = "R" then GearShifter.reverse
    else if s = "S" then GearShifter.sport
    else if s = "L" then GearShifter.low
    else if s = "B" then GearShifter.brake
    else if s = "E" then GearShifter.eco
    else if s = "T" then GearShifter.manumatic
    else GearShifter.unknown

/-- Python `dict.get(key, None)` on the gear dictionary: the first entry with
the given key, or `none` when the code is absent. -/
def dictGet (d : List (ℚ × String)) (k : ℚ) : Option String :=
  (d.find? fun p => decide (p.1 = k)).map Prod.snd

/-- Static configuration (`car.CarParams` as the decoder consumes it, plus
the gear dictionary `shifter_values` loaded at construction from the message
definition registry).  `cc_only_car` stands for the membership test
`carFingerprint in CC_ONLY_CAR` of the source. -/
structure CarParams where
  networkLocation : NetworkLocation
  transmissionType : TransmissionType
  enableGasInterceptor : Bool
  cc_only_car : Bool
  shifter_values : List (ℚ × String)

/-- The powertrain-segment signal table for one cycle: one field per signal
`update` reads from `pt_cp.vl`.  `RollingCounter` is the
`ASCMSteeringButton` counter, the only powertrain counter the decoder
reads. -/
structure PtSignals where
  ACCButtons : ℚ
  RollingCounter : ℚ
  FLWheelSpd : ℚ
  FRWheelSpd : ℚ
  RLWheelSpd : ℚ
  RRWheelSpd : ℚ
  ManualMode : ℚ
  PRNDL2 : ℚ
  BrakePedalPos : ℚ
  RegenPaddle : ℚ
  INTERCEPTOR_GAS : ℚ
  INTERCEPTOR_GAS2 : ℚ
  AcceleratorPedal2 : ℚ
  CruiseState : ℚ
  SteeringWheelAngle : ℚ
  SteeringWheelRate : ℚ
  LKADriverAppldTrq : ℚ
  LKATorqueDelivered : ℚ
  LKATorqueDeliveredStatus : ℚ
  FrontLeftDoor : ℚ
  FrontRightDoor : ℚ
  RearLeftDoor : ℚ
  RearRightDoor : ℚ
  LeftSeatBelt : ℚ
  RightSeatBelt : ℚ
  TurnSignals : ℚ
  ParkBrake : ℚ
  TractionControlOn : ℚ
  CruiseMainOn : ℚ
  CruiseActive : ℚ
  CruiseSetSpeed : ℚ

/-- The camera-segment (forward gateway) signal table for one cycle.
`RollingCounter` is the camera copy of the `ASCMLKASteeringCmd` counter. -/
structure CamSignals where
  AEBCmdActive : ℚ
  RollingCounter : ℚ
  FCWAlert : ℚ
  ACCSpeedSetpoint : ℚ

/-- Cruise sub-record of the snapshot (`ret.cruiseState`). -/
structure CruiseState where
  available : Bool
  enabled : Bool
  standstill : Bool
  nonAdaptive : Bool
  speed : ℚ

/-- The State Snapshot `ret` built by `update` (`car.CarState.new_message`);
fields a configuration's branch never assigns keep the message defaults
(numeric 0, boolean false). -/
structure CarStateMsg where
  wheelSpeeds : WheelSpeeds
  vEgoRaw : ℚ
  vEgo : ℚ
  aEgo : ℚ
  standstill : Bool
  gearShifter : GearShifter
  brake : ℚ
  brakePressed : Bool
  gas : ℚ
  gasPressed : Bool
  steeringAngleDeg : ℚ
  steeringRateDeg : ℚ
  steeringTorque : ℚ
  steeringTorqueEps : ℚ
  steeringPressed : Bool
  steerFaultTemporary : Bool
  steerFaultPermanent : Bool
  doorOpen : Bool
  seatbeltUnlatched : Bool
  leftBlinker : Bool
  rightBlinker : Bool
  parkingBrake : Bool
  cruiseState : CruiseState
  espDisabled : Bool
  accFaulted : Bool
  stockAeb : Bool
  stockFcw : Bool

/-- The mutable per-instance attributes of the Python `CarState` object that
`update` reads or writes: the diagnostic button codes and counters, the
loopback/camera command-echo data, the last steering status code and the
Speed Estimator state. -/
structure CarState where
  cruise_buttons : ℚ
  prev_cruise_buttons : ℚ
  buttons_counter : ℚ
  loopback_lka_steering_cmd_updated : Bool
  camera_lka_steering_cmd_counter : ℚ
  lkas_status : ℚ
  v_ego_kf : KFState

/-- One decode cycle: the body of `CarState.update(self, pt_cp, cam_cp,
loopback_cp)` of `selfdrive/car/gm/carstate.py`, with the configuration
`self.CP` passed explicitly and the loopback table given as the list
`loopback_cp.vl_all` of `ASCMLKASteeringCmd` counter values received this
cycle (latest last).  Returns the snapshot together with the instance state
after the call.  The source's first `cruiseState.speed` assignment inside
the camera branch is overwritten by both sub-branches before the return, so
only the net value appears here. -/
def CarState.update (CP : CarParams) (self : CarState) (pt_cp : PtSignals)
    (cam_cp : CamSignals) (loopback_vl_all : List ℚ) : CarStateMsg × CarState :=
  let prev_cruise_buttons := self.cruise_buttons
  let cruise_buttons := pt_cp.ACCButtons
  let buttons_counter := pt_cp.RollingCounter
  let loopback_lka_steering_cmd_updated := decide (0 < loopback_vl_all.length)
  let camera_lka_steering_cmd_counter :=
    if CP.networkLocation = NetworkLocation.fwdCamera then cam_cp.RollingCounter
    else self.camera_lka_steering_cmd_counter
  let wheelSpeeds :=
    get_wheel_speeds pt_cp.FLWheelSpd pt_cp.FRWheelSpd pt_cp.RLWheelSpd pt_cp.RRWheelSpd
  let vEgoRaw := mean [wheelSpeeds.fl, wheelSpeeds.fr, wheelSpeeds.rl, wheelSpeeds.rr]
  let kf := update_speed_kf self.v_ego_kf vEgoRaw
  let standstill := decide (vEgoRaw < 1 / 100)
  let gearShifter :=
    if pt_cp.ManualMode = 1 then parse_gear_shifter (some "T")
    else parse_gear_shifter (dictGet CP.shifter_values pt_cp.PRNDL2)
  let brake := pt_cp.BrakePedalPos
  let brakePressedBase :=
    if CP.networkLocation ≠ NetworkLocation.fwdCamera then decide (brake ≥ 8)
    else decide (brake ≥ 20)
  let brakePressed :=
    if CP.transmissionType = TransmissionType.direct then
      brakePressedBase || decide (pt_cp.RegenPaddle ≠ 0)
    else brakePressedBase
  let gas :=
    if CP.enableGasInterceptor then (pt_cp.INTERCEPTOR_GAS + pt_cp.INTERCEPTOR_GAS2) / 2
    else pt_cp.AcceleratorPedal2 / 254
  let gasPressed :=
    if CP.enableGasInterceptor then decide (gas > 15) else decide (gas > 1 / 100000)
  let steeringTorque := pt_cp.LKADriverAppldTrq
  let lkas_status := pt_cp.LKATorqueDeliveredStatus
  let doorOpen :=
    decide (pt_cp.FrontLeftDoor = 1) || decide (pt_cp.FrontRightDoor = 1) ||
      decide (pt_cp.RearLeftDoor = 1) || decide (pt_cp.RearRightDoor = 1)
  let cruiseAvailableRaw := decide (pt_cp.CruiseMainOn ≠ 0)
  let cruiseAvailable :=
    if CP.enableGasInterceptor then !cruiseAvailableRaw else cruiseAvailableRaw
  let accFaulted :=
    if CP.cc_only_car then false else decide (pt_cp.CruiseState = AccState.FAULTED)
  let cruiseEnabled :=
    if CP.cc_only_car then decide (pt_cp.CruiseActive = 1)
    else decide (pt_cp.CruiseState ≠ AccState.OFF)
  let cruiseStandstill :=
    if CP.cc_only_car then false else decide (pt_cp.CruiseState = AccState.STANDSTILL)
  let cruiseNonAdaptive := if CP.cc_only_car then true else false
  let cruiseSpeed :=
    if CP.networkLocation = NetworkLocation.fwdCamera then
      if CP.cc_only_car then pt_cp.CruiseSetSpeed * KPH_TO_MS
      else cam_cp.ACCSpeedSetpoint / 16 * KPH_TO_MS
    else 0
  let stockAeb :=
    if CP.networkLocation = NetworkLocation.fwdCamera then decide (cam_cp.AEBCmdActive ≠ 0)
    else false
  let stockFcw :=
    if CP.networkLocation = NetworkLocation.fwdCamera then
      if CP.cc_only_car then false else decide (cam_cp.FCWAlert ≠ 0)
    else false
  ({ wheelSpeeds := wheelSpeeds
     vEgoRaw := vEgoRaw
     vEgo := kf.v
     aEgo := kf.a
     standstill := standstill
     gearShifter := gearShifter
     brake := brake
     brakePressed := brakePressed
     gas := gas
     gasPressed := gasPressed
     steeringAngleDeg := pt_cp.SteeringWheelAngle
     steeringRateDeg := pt_cp.SteeringWheelRate
     steeringTorque := steeringTorque
     steeringTorqueEps := pt_cp.LKATorqueDelivered
     steeringPressed := decide (|steeringTorque| > STEER_THRESHOLD)
     steerFaultTemporary := decide (lkas_status = 2)
     steerFaultPermanent := decide (lkas_status = 3)
     doorOpen := doorOpen
     seatbeltUnlatched := decide (pt_cp.LeftSeatBelt = 0)
     leftBlinker := decide (pt_cp.TurnSignals = 1)
     rightBlinker := decide (pt_cp.TurnSignals = 2)
     parkingBrake := decide (pt_cp.ParkBrake = 1)
     cruiseState :=
       { available := cruiseAvailable
         enabled := cruiseEnabled
         standstill := cruiseStandstill
         nonAdaptive := cruiseNonAdaptive
         speed := cruiseSpeed }
     espDisabled := decide (pt_cp.TractionControlOn ≠ 1)
     accFaulted := accFaulted
     stockAeb := stockAeb
     stockFcw := stockFcw },
   { cruise_buttons := cruise_buttons
     prev_cruise_buttons := prev_cruise_buttons
     buttons_counter := buttons_counter
     loopback_lka_steering_cmd_updated := loopback_lka_steering_cmd_updated
     camera_lka_steering_cmd_counter := camera_lka_steering_cmd_counter
     lkas_status := lkas_status
     v_ego_kf := kf })

/-! ## Concrete fixtures used by witnesses and counterexamples -/

/-- All-zero powertrain signal table. -/
def pt0 : PtSignals :=
  ⟨0, 0, 0, 0, 0, 0, 0, 0, 0, 0, 0, 0, 0, 0, 0, 0, 0, 0, 0, 0, 0, 0, 0, 0, 0, 0, 0, 0, 0, 0, 0⟩

/-- All-zero camera signal table. -/
def cam0 : CamSignals := ⟨0, 0, 0, 0⟩

/-- Camera table whose `ASCMLKASteeringCmd` counter is 5. -/
def cam5 : CamSignals := { cam0 with RollingCounter := 5 }

/-- Camera table with a nonzero adaptive-cruise setpoint. -/
def cam16 : CamSignals := { cam0 with ACCSpeedSetpoint := 160 }

/-- Instance state as `__init__` leaves it (counters zero, echo flag false,
filter at rest). -/
def hist0 : CarState := ⟨0, 0, 0, false, 0, 0, ⟨0, 0⟩⟩

/-- Instance state whose Speed Estimator believes the car moves at 1. -/
def histKf : CarState := { hist0 with v_ego_kf := ⟨1, 0⟩ }

/-- Integrated topology, automatic transmission, no interceptor, adaptive
cruise, empty gear dictionary. -/
def cp0 : CarParams := ⟨NetworkLocation.gateway, TransmissionType.automatic, false, false, []⟩

/-- Forward-gateway topology, adaptive cruise. -/
def cp_cam : CarParams := ⟨NetworkLocation.fwdCamera, TransmissionType.automatic, false, false, []⟩

/-- Forward-gateway topology, conventional-cruise-only vehicle. -/
def cp_cc : CarParams := ⟨NetworkLocation.fwdCamera, TransmissionType.automatic, false, true, []⟩

/-- Integrated topology, conventional-cruise-only vehicle. -/
def cp_cc_int : CarParams := ⟨NetworkLocation.gateway, TransmissionType.automatic, false, true, []⟩

/-- Integrated topology, direct-drive transmission. -/
def cp_direct : CarParams := ⟨NetworkLocation.gateway, TransmissionType.direct, false, false, []⟩

/-- Powertrain table with regen paddle pulled and the brake pedal released. -/
def pt_regen : PtSignals := { pt0 with RegenPaddle := 1 }

/-- Powertrain table reporting the raw faulted cruise code with the dedicated
cruise-active bit set. -/
def pt_c3 : PtSignals := { pt0 with CruiseState := 3, CruiseActive := 1 }

/-- Powertrain table with a conventional-cruise setpoint of 36 km/h. -/
def pt_c5 : PtSignals := { pt0 with CruiseSetSpeed := 36 }

/-- Powertrain table with cruise engaged but the main-on bit clear. -/
def pt_c8 : PtSignals := { pt0 with CruiseState := 1 }

/-- Powertrain table with cruise engaged and the main-on bit set. -/
def pt_c8w : PtSignals := { pt0 with CruiseMainOn := 1, CruiseState := 1 }

/-! ## The claims -/

/-- Claim C6: for every cycle input the two steering fault booleans follow the
fixed status-code table — the temporary fault holds exactly on code 2, the
permanent fault exactly on code 3 (so codes 0 and 1 set neither), and the two
faults are never simultaneously true for any input value. -/
theorem C6_steer_fault_table (CP : CarParams) (self : CarState) (pt_cp : PtSignals)
    (cam_cp : CamSignals) (lb : List ℚ) :
    (CarState.update CP self pt_cp cam_cp lb).1.steerFaultTemporary
        = decide (pt_cp.LKATorqueDeliveredStatus = 2) ∧
    (CarState.update CP self pt_cp cam_cp lb).1.steerFaultPermanent
        = decide (pt_cp.LKATorqueDeliveredStatus = 3) ∧
    ((CarState.update CP self pt_cp cam_cp lb).1.steerFaultTemporary &&
        (CarState.update CP self pt_cp cam_cp lb).1.steerFaultPermanent) = false := by
  refine ⟨rfl, rfl, ?_⟩
  by_cases h : pt_cp.LKATorqueDeliveredStatus = 2 <;>
    simp [CarState.update, h]

/-- Claim C10: the seatbelt-unlatched boolean is true exactly when the left
(driver) seatbelt signal equals 0, and the right-seatbelt signal never affects
the result of `update`: two cycle inputs differing only in `RightSeatBelt`
produce the same snapshot and the same instance state. -/
theorem C10_right_seatbelt_unused (CP : CarParams) (self : CarState) (pt_cp : PtSignals)
    (cam_cp : CamSignals) (lb : List ℚ) (x : ℚ) :
    CarState.update CP self { pt_cp with RightSeatBelt := x } cam_cp lb
        = CarState.update CP self pt_cp cam_cp lb ∧
    (CarState.update CP self pt_cp cam_cp lb).1.seatbeltUnlatched
        = decide (pt_cp.LeftSeatBelt = 0) :=
  ⟨rfl, rfl⟩

/-- Claim C2: the raw velocity of the snapshot is the arithmetic mean of the
four wheel-speed signals and the standstill boolean holds exactly when that
raw velocity is below 1/100, for every state of the Speed Estimator; in
particular four zero wheel speeds give raw velocity 0 and standstill true. -/
theorem C2_raw_velocity_standstill (CP : CarParams) (self : CarState) (pt_cp : PtSignals)
    (cam_cp : CamSignals) (lb : List ℚ) :
    (CarState.update CP self pt_cp cam_cp lb).1.vEgoRaw
        = (pt_cp.FLWheelSpd + pt_cp.FRWheelSpd + pt_cp.RLWheelSpd + pt_cp.RRWheelSpd) / 4 ∧
    ((CarState.update CP self pt_cp cam_cp lb).1.standstill = true ↔
      (CarState.update CP self pt_cp cam_cp lb).1.vEgoRaw < 1 / 100) ∧
    (pt_cp.FLWheelSpd = 0 ∧ pt_cp.FRWheelSpd = 0 ∧ pt_cp.RLWheelSpd = 0 ∧ pt_cp.RRWheelSpd = 0 →
      (CarState.update CP self pt_cp cam_cp lb).1.vEgoRaw = 0 ∧
      (CarState.update CP self pt_cp cam_cp lb).1.standstill = true) := by
  have hm : (CarState.update CP self pt_cp cam_cp lb).1.vEgoRaw
      = (pt_cp.FLWheelSpd + pt_cp.FRWheelSpd + pt_cp.RLWheelSpd + pt_cp.RRWheelSpd) / 4 := by
    show mean [pt_cp.FLWheelSpd, pt_cp.FRWheelSpd, pt_cp.RLWheelSpd, pt_cp.RRWheelSpd] = _
    simp [mean]
    ring
  have hs : (CarState.update CP self pt_cp cam_cp lb).1.standstill = true ↔
      (CarState.update CP self pt_cp cam_cp lb).1.vEgoRaw < 1 / 100 := by
    exact decide_eq_true_iff
  refine ⟨hm, hs, ?_⟩
  rintro ⟨h1, h2, h3, h4⟩
  have hz : (CarState.update CP self pt_cp cam_cp lb).1.vEgoRaw = 0 := by
    rw [hm, h1, h2, h3, h4]; norm_num
  exact ⟨hz, hs.mpr (by rw [hz]; norm_num)⟩

/-- Witness for C2 at the all-zero input: raw velocity 0 and standstill. -/
theorem C2_witness :
    (CarState.update cp0 hist0 pt0 cam0 []).1.vEgoRaw = 0 ∧
    (CarState.update cp0 hist0 pt0 cam0 []).1.standstill = true :=
  (C2_raw_velocity_standstill cp0 hist0 pt0 cam0 []).2.2 ⟨rfl, rfl, rfl, rfl⟩

/-- Claim C3: on a conventional-cruise-only configuration the decoded cruise
fault is forced false for every input (so also when the raw status code is the
raw faulted value 3), cruise standstill-hold is forced false, cruise
non-adaptive is forced true, and cruise enabled holds exactly when the
dedicated cruise-active bit equals 1. -/
theorem C3_cc_only_cruise (CP : CarParams) (self : CarState) (pt_cp : PtSignals)
    (cam_cp : CamSignals) (lb : List ℚ) (hcc : CP.cc_only_car = true) :
    (CarState.update CP self pt_cp cam_cp lb).1.accFaulted = false ∧
    (CarState.update CP self pt_cp cam_cp lb).1.cruiseState.standstill = false ∧
    (CarState.update CP self pt_cp cam_cp lb).1.cruiseState.nonAdaptive = true ∧
    ((CarState.update CP self pt_cp cam_cp lb).1.cruiseState.enabled = true ↔
      pt_cp.CruiseActive = 1) := by
  simp [CarState.update, hcc]

/-- Witness for C3 on a conventional-cruise-only configuration with the raw
status code at the faulted value 3 and the cruise-active bit set. -/
theorem C3_witness :
    (CarState.update cp_cc hist0 pt_c3 cam0 []).1.accFaulted = false ∧
    (CarState.update cp_cc hist0 pt_c3 cam0 []).1.cruiseState.standstill = false ∧
    (CarState.update cp_cc hist0 pt_c3 cam0 []).1.cruiseState.nonAdaptive = true ∧
    ((CarState.update cp_cc hist0 pt_c3 cam0 []).1.cruiseState.enabled = true ↔
      pt_c3.CruiseActive = 1) :=
  C3_cc_only_cruise cp_cc hist0 pt_c3 cam0 [] rfl

/-- Claim C1: with integrated topology the brake pressed boolean holds exactly
when the brake actuation signal is at least 8, with forward-gateway topology
exactly when it is at least 20, in both cases OR-ed with the direct-drive
regenerative-paddle condition; and on a direct-drive transmission a nonzero
regen-paddle signal forces pressed true regardless of the brake value. -/
theorem C1_brake_pressed_thresholds (CP : CarParams) (self : CarState) (pt_cp : PtSignals)
    (cam_cp : CamSignals) (lb : List ℚ) :
    (CP.transmissionType = TransmissionType.direct → pt_cp.RegenPaddle ≠ 0 →
      (CarState.update CP self pt_cp cam_cp lb).1.brakePressed = true) ∧
    (CP.networkLocation ≠ NetworkLocation.fwdCamera →
      ((CarState.update CP self pt_cp cam_cp lb).1.brakePressed = true ↔
        (pt_cp.BrakePedalPos ≥ 8 ∨
          (CP.transmissionType = TransmissionType.direct ∧ pt_cp.RegenPaddle ≠ 0)))) ∧
    (CP.networkLocation = NetworkLocation.fwdCamera →
      ((CarState.update CP self pt_cp cam_cp lb).1.brakePressed = true ↔
        (pt_cp.BrakePedalPos ≥ 20 ∨
          (CP.transmissionType = TransmissionType.direct ∧ pt_cp.RegenPaddle ≠ 0)))) := by
  refine ⟨?_, ?_, ?_⟩
  · intro ht hr
    simp [CarState.update, ht, hr]
  · intro h
    by_cases ht : CP.transmissionType = TransmissionType.direct <;>
      simp [CarState.update, h, ht]
  · intro h
    by_cases ht : CP.transmissionType = TransmissionType.direct <;>
      simp [CarState.update, h, ht]

/-- Witness for C1: direct-drive, integrated topology, brake signal 0 but the
regen paddle pulled — pressed is forced true. -/
theorem C1_witness :
    (CarState.update cp_direct hist0 pt_regen cam0 []).1.brakePressed = true :=
  (C1_brake_pressed_thresholds cp_direct hist0 pt_regen cam0 []).1 rfl (by decide)

/-- Claim C7, settled as stated for the decoders of gear and blinkers: the
embedding of `update` is a total function, so a snapshot is returned on every
input; when the manual-mode flag is not 1 and the selector code is absent
from the gear dictionary the gear decodes to `unknown`; when the blinker code
is neither 1 nor 2 both blinker booleans are false. -/
theorem C7_unknown_codes_degrade (CP : CarParams) (self : CarState) (pt_cp : PtSignals)
    (cam_cp : CamSignals) (lb : List ℚ) :
    (pt_cp.ManualMode ≠ 1 → dictGet CP.shifter_values pt_cp.PRNDL2 = none →
      (CarState.update CP self pt_cp cam_cp lb).1.gearShifter = GearShifter.unknown) ∧
    (pt_cp.TurnSignals ≠ 1 →
      (CarState.update CP self pt_cp cam_cp lb).1.leftBlinker = false) ∧
    (pt_cp.TurnSignals ≠ 2 →
      (CarState.update CP self pt_cp cam_cp lb).1.rightBlinker = false) := by
  refine ⟨?_, ?_, ?_⟩
  · intro h1 h2
    simp [CarState.update, h1, h2, parse_gear_shifter]
  · intro h
    simp [CarState.update, h]
  · intro h
    simp [CarState.update, h]

/-- Witness for C7 at the all-zero input with an empty gear dictionary:
gear decodes to unknown and both blinkers are off. -/
theorem C7_witness :
    (CarState.update cp0 hist0 pt0 cam0 []).1.gearShifter = GearShifter.unknown ∧
    (CarState.update cp0 hist0 pt0 cam0 []).1.leftBlinker = false ∧
    (CarState.update cp0 hist0 pt0 cam0 []).1.rightBlinker = false := by
  obtain ⟨h1, h2, h3⟩ := C7_unknown_codes_degrade cp0 hist0 pt0 cam0 []
  exact ⟨h1 (by decide) rfl, h2 (by decide), h3 (by decide)⟩

/-- Counterexample to C4 as stated: integrated topology, one loopback frame
with counter 7 — echo-seen becomes true, yet the cached rolling-counter
value is not the latest loopback frame's counter (the decoder only ever
caches the camera segment's counter, and only on forward-gateway topology). -/
theorem C4_counterexample :
    (CarState.update cp0 hist0 pt0 cam5 [7]).2.loopback_lka_steering_cmd_updated = true ∧
    (CarState.update cp0 hist0 pt0 cam5 [7]).2.camera_lka_steering_cmd_counter ≠ 7 := by
  decide

/-- Claim C4 as amended: echo-seen is true exactly when at least one frame of
the loopback message arrived this cycle, regardless of value; the cached
rolling counter is read from the camera segment's copy of the command
message when the topology is forward-gateway and is carried over unchanged
otherwise — it is not taken from the loopback frames. -/
theorem C4_echo_seen_amended (CP : CarParams) (self : CarState) (pt_cp : PtSignals)
    (cam_cp : CamSignals) (lb : List ℚ) :
    ((CarState.update CP self pt_cp cam_cp lb).2.loopback_lka_steering_cmd_updated = true
        ↔ lb ≠ []) ∧
    (CP.networkLocation = NetworkLocation.fwdCamera →
      (CarState.update CP self pt_cp cam_cp lb).2.camera_lka_steering_cmd_counter
        = cam_cp.RollingCounter) ∧
    (CP.networkLocation ≠ NetworkLocation.fwdCamera →
      (CarState.update CP self pt_cp cam_cp lb).2.camera_lka_steering_cmd_counter
        = self.camera_lka_steering_cmd_counter) := by
  refine ⟨?_, ?_, ?_⟩
  · show decide (0 < lb.length) = true ↔ lb ≠ []
    simp [List.length_pos]
  · intro h
    simp [CarState.update, h]
  · intro h
    simp [CarState.update, h]

/-- Witness for C4 (amended) on forward-gateway topology: the cached counter
equals the camera segment's counter value. -/
theorem C4_witness :
    (CarState.update cp_cam hist0 pt0 cam5 [7]).2.camera_lka_steering_cmd_counter
      = cam5.RollingCounter :=
  (C4_echo_seen_amended cp_cam hist0 pt0 cam5 [7]).2.1 rfl

/-- Counterexample to C5 as stated: a conventional-cruise-only configuration
on integrated topology — the setpoint signal reads 36 yet the snapshot's
cruise speed is the message default 0, not the unit-converted signal. -/
theorem C5_counterexample :
    (CarState.update cp_cc_int hist0 pt_c5 cam0 []).1.cruiseState.speed = 0 ∧
    pt_c5.CruiseSetSpeed * KPH_TO_MS ≠ 0 := by
  constructor
  · rfl
  · norm_num [pt_c5, pt0, KPH_TO_MS]

/-- Claim C5 as amended: on a forward-gateway adaptive-cruise configuration
the cruise speed setpoint is the gateway segment's setpoint signal divided by
16 and unit-converted, and the forward-sensing flags are read from that
segment; on a forward-gateway conventional-cruise-only configuration the
setpoint is the cruise-control-specific signal, unit-converted with no
divide-by-16; without a forward-gateway segment the setpoint keeps the
message default 0. -/
theorem C5_cruise_speed_sources_amended (CP : CarParams) (self : CarState)
    (pt_cp : PtSignals) (cam_cp : CamSignals) (lb : List ℚ) :
    (CP.networkLocation = NetworkLocation.fwdCamera → CP.cc_only_car = false →
      (CarState.update CP self pt_cp cam_cp lb).1.cruiseState.speed
          = cam_cp.ACCSpeedSetpoint / 16 * KPH_TO_MS ∧
      (CarState.update CP self pt_cp cam_cp lb).1.stockFcw
          = decide (cam_cp.FCWAlert ≠ 0) ∧
      (CarState.update CP self pt_cp cam_cp lb).1.stockAeb
          = decide (cam_cp.AEBCmdActive ≠ 0)) ∧
    (CP.networkLocation = NetworkLocation.fwdCamera → CP.cc_only_car = true →
      (CarState.update CP self pt_cp cam_cp lb).1.cruiseState.speed
          = pt_cp.CruiseSetSpeed * KPH_TO_MS) ∧
    (CP.networkLocation ≠ NetworkLocation.fwdCamera →
      (CarState.update CP self pt_cp cam_cp lb).1.cruiseState.speed = 0) := by
  refine ⟨?_, ?_, ?_⟩
  · intro h hcc
    refine ⟨?_, ?_, ?_⟩ <;> simp [CarState.update, h, hcc]
  · intro h hcc
    simp [CarState.update, h, hcc]
  · intro h
    simp [CarState.update, h]

/-- Witness for C5 (amended) on a forward-gateway adaptive-cruise
configuration: setpoint divided by sixteen then unit-converted, and both
forward-sensing flags read from the camera table. -/
theorem C5_witness :
    (CarState.update cp_cam hist0 pt0 cam16 []).1.cruiseState.speed
        = cam16.ACCSpeedSetpoint / 16 * KPH_TO_MS ∧
    (CarState.update cp_cam hist0 pt0 cam16 []).1.stockFcw
        = decide (cam16.FCWAlert ≠ 0) ∧
    (CarState.update cp_cam hist0 pt0 cam16 []).1.stockAeb
        = decide (cam16.AEBCmdActive ≠ 0) :=
  (C5_cruise_speed_sources_amended cp_cam hist0 pt0 cam16 []).1 rfl rfl

/-- Counterexample to C8 as stated: adaptive-cruise configuration with the
cruise status code at 1 (engaged) while the main-on bit is 0 — the snapshot
reports cruise enabled without cruise available, so the decoder does not
enforce the implication. -/
theorem C8_counterexample :
    (CarState.update cp0 hist0 pt_c8 cam0 []).1.cruiseState.enabled = true ∧
    (CarState.update cp0 hist0 pt_c8 cam0 []).1.cruiseState.available = false := by
  decide

/-- Claim C8 as amended: enabled and available are decoded from independent
signals, so the implication holds exactly when the underlying signals are
consistent — on an interceptor-free configuration, if the main-on bit is
nonzero whenever the status code (or, for conventional-cruise-only vehicles,
the cruise-active bit) indicates engagement, then an enabled snapshot is also
available. -/
theorem C8_enabled_implies_available_amended (CP : CarParams) (self : CarState)
    (pt_cp : PtSignals) (cam_cp : CamSignals) (lb : List ℚ)
    (hint : CP.enableGasInterceptor = false)
    (hcc : CP.cc_only_car = true → pt_cp.CruiseActive = 1 → pt_cp.CruiseMainOn ≠ 0)
    (hacc : CP.cc_only_car = false → pt_cp.CruiseState ≠ AccState.OFF → pt_cp.CruiseMainOn ≠ 0)
    (hen : (CarState.update CP self pt_cp cam_cp lb).1.cruiseState.enabled = true) :
    (CarState.update CP self pt_cp cam_cp lb).1.cruiseState.available = true := by
  cases hb : CP.cc_only_car with
  | false =>
    have h1 : pt_cp.CruiseState ≠ AccState.OFF := by
      simpa [CarState.update, hb] using hen
    simp [CarState.update, hint, hacc hb h1]
  | true =>
    have h1 : pt_cp.CruiseActive = 1 := by
      simpa [CarState.update, hb] using hen
    simp [CarState.update, hint, hcc hb h1]

/-- Witness for C8 (amended): engaged status code with the main-on bit set —
the snapshot is available. -/
theorem C8_witness :
    (CarState.update cp0 hist0 pt_c8w cam0 []).1.cruiseState.available = true :=
  C8_enabled_implies_available_amended cp0 hist0 pt_c8w cam0 [] rfl
    (by decide) (by decide) (by decide)

/-- Counterexample to C9 as stated: two decoder instances differing only in
the Speed Estimator's prior state disagree, on the same cycle input and
configuration, on the filtered velocity — a snapshot field that is neither
gear nor a diagnostic counter. -/
theorem C9_counterexample :
    (CarState.update cp0 hist0 pt0 cam0 []).1.vEgo ≠
      (CarState.update cp0 histKf pt0 cam0 []).1.vEgo := by
  norm_num [CarState.update, update_speed_kf, mean, get_wheel_speeds, hist0, histKf, pt0]

/-- Claim C9 as amended: two decoder instances with different prior
histories, on identical current-cycle signal tables and the same
configuration, produce snapshots agreeing on every field except the filtered
velocity and filtered acceleration, which derive from the persistent Speed
Estimator state (the diagnostic state — previous button code, cached echo
counter — carries over outside the snapshot). -/
theorem C9_snapshot_recomputed_amended (CP : CarParams) (s1 s2 : CarState)
    (pt_cp : PtSignals) (cam_cp : CamSignals) (lb : List ℚ) :
    { (CarState.update CP s1 pt_cp cam_cp lb).1 with vEgo := 0, aEgo := 0 }
      = { (CarState.update CP s2 pt_cp cam_cp lb).1 with vEgo := 0, aEgo := 0 } := rfl
